import Mathlib

set_option maxRecDepth 100000

/-!
Verification of the envelope-encryption core of `ironcore-alloy`.

The development shallowly embeds two source files:
* `src/saas_shield/deterministic.rs` — the SaaS Shield deterministic field client
  (encrypt, decrypt, generate_query_field_values, rotate_fields);
* `core/src/standard.rs` — the standard (probabilistic) document core
  (verify_sig, encrypt_document_core, decrypt_document_core).

Collaborator code that the repository provides outside these files (the key-id
header codec, the AEAD primitives, the key-derivation resolver and the batch
utilities) is modelled from the specification, with each such definition marked
`Modelled from the spec`.  Bytes are `Nat`s (values < 256 where the source
produces them); Rust `u32` arithmetic is `Nat` with explicit `% 2^32` bounds;
fallible Rust functions return `Except`.
-/

/-- Tagged errors of the deterministic (alloy) surface, from `errors.rs`
(`AlloyError`); only the variants reached by the embedded code are modelled. -/
inductive AlloyError where
  | InvalidKey (msg : String)
  | RequestError (msg : String)
  | DecryptError (msg : String)
  | EncryptError (msg : String)
  | MalformedHeader (msg : String)
  deriving Repr, DecidableEq

/-- Tagged errors of the standard core (`CloakedAiError` in `core/src`). -/
inductive CloakedAiError where
  | DecryptError (msg : String)
  | EncryptError (msg : String)
  deriving Repr, DecidableEq

/-- EDEK provider tag of a key-id header (`EdekType`). -/
inductive EdekType where
  | SaasShield
  | Standalone
  deriving Repr, DecidableEq

/-- Payload tag of a key-id header (`PayloadType`). -/
inductive PayloadType where
  | DeterministicField
  | VectorMetadata
  | StandardEdek
  deriving Repr, DecidableEq

/-- Modelled from the spec: numeric tag of an `EdekType` in the wire header
(pinned by the source tests: SaaS Shield contributes 0 to the tag byte). -/
def edekTypeByte : EdekType → Nat
  | .SaasShield => 0
  | .Standalone => 128

/-- Modelled from the spec: numeric tag of a `PayloadType` in the wire header
(pinned by the source tests: DeterministicField 0, StandardEdek 2). -/
def payloadTypeByte : PayloadType → Nat
  | .DeterministicField => 0
  | .VectorMetadata => 1
  | .StandardEdek => 2

/-- Modelled from the spec: inverse of the combined tag byte of the header. -/
def parseTypeByte : Nat → Option (EdekType × PayloadType)
  | 0 => some (.SaasShield, .DeterministicField)
  | 1 => some (.SaasShield, .VectorMetadata)
  | 2 => some (.SaasShield, .StandardEdek)
  | 128 => some (.Standalone, .DeterministicField)
  | 129 => some (.Standalone, .VectorMetadata)
  | 130 => some (.Standalone, .StandardEdek)
  | _ => none

/-- The 6-byte key-id header bound to every ciphertext (`KeyIdHeader`). -/
structure KeyIdHeader where
  edek_type : EdekType
  payload_type : PayloadType
  key_id : Nat
  deriving Repr, DecidableEq

/-- Big-endian 4-byte encoding of a `u32` key id. -/
def u32BE (n : Nat) : List Nat :=
  [n / 16777216 % 256, n / 65536 % 256, n / 256 % 256, n % 256]

/-- Modelled from the spec: the 6-byte header encoding — big-endian `u32`
key id, then a combined type-tag byte, then a zero pad byte (the layout the
source tests pin: `[0,0,0,1,2,0]` for (SaasShield, StandardEdek, 1) and
`[0,0,0,1,0,0]` for (SaasShield, DeterministicField, 1)). -/
def KeyIdHeader.writeToBytes (h : KeyIdHeader) : List Nat :=
  u32BE h.key_id ++ [edekTypeByte h.edek_type + payloadTypeByte h.payload_type, 0]

/-- Modelled from the spec: header decoding plus the client-side validation in
`decompose_key_id_header` — fail with `MalformedHeader` when the input is
shorter than 6 bytes or the tag byte is unrecognised, and reject headers whose
provider/payload tags differ from the calling client's expected pair.  Returns
the decoded key id together with the untouched remainder. -/
def decomposeKeyIdHeader (expectedEdek : EdekType) (expectedPayload : PayloadType)
    (bytes : List Nat) : Except AlloyError (Nat × List Nat) :=
  match bytes with
  | b0 :: b1 :: b2 :: b3 :: b4 :: _b5 :: rest =>
    match parseTypeByte b4 with
    | some (e, p) =>
      if e = expectedEdek ∧ p = expectedPayload then
        .ok (b0 * 16777216 + b1 * 65536 + b2 * 256 + b3, rest)
      else
        .error (.MalformedHeader "The header in the document does not match the expected type.")
    | none => .error (.MalformedHeader "Unrecognized header tag byte.")
  | _ => .error (.MalformedHeader "Header too short.")

/-- A derived key returned by the TSP (`DerivedKey`): 64 key bytes, the
`u32` tenant secret id and the current-marker. -/
structure DerivedKey where
  derived_key : List Nat
  tenant_secret_id : Nat
  current : Bool
  deriving Repr, DecidableEq

/-- A plaintext field together with its derivation slot (`PlaintextField`). -/
structure PlaintextField where
  plaintext_field : List Nat
  secret_path : String
  derivation_path : String
  deriving Repr, DecidableEq

/-- A deterministic ciphertext together with its derivation slot
(`EncryptedField`); `encrypted_field` is header ‖ deterministic ciphertext. -/
structure EncryptedField where
  encrypted_field : List Nat
  secret_path : String
  derivation_path : String
  deriving Repr, DecidableEq

/-- Modelled from the spec: a concrete mixing function standing in for the
keyed PRF / block-cipher black boxes of the AEAD primitives.  Only its
functional behaviour (a deterministic digest of its input bytes) matters. -/
def mix (xs : List Nat) : Nat :=
  xs.foldl (fun a b => (a * 131 + b + 1) % 4294967296) 7

/-- Modelled from the spec: an `n`-byte PRF output seeded by `seed`. -/
def prfBytes (n : Nat) (seed : List Nat) : List Nat :=
  (List.range n).map (fun i => mix (i :: seed) % 256)

/-- Byte-wise XOR of two byte strings (truncating to the shorter). -/
def xorBytes (xs ys : List Nat) : List Nat :=
  List.zipWith (fun a b => a ^^^ b) xs ys

/-- Modelled from the spec: the keystream of the block cipher under `key`
with synthetic IV `iv`, of length `n`. -/
def keystream (key iv : List Nat) (n : Nat) : List Nat :=
  prfBytes n (2 :: (key ++ iv))

/-- Modelled from the spec: the canonical associated-data encoding of the
`(secret_path, derivation_path)` pair. -/
def adBytes (secret_path derivation_path : String) : List Nat :=
  (secret_path.data.map Char.toNat) ++ 0 :: (derivation_path.data.map Char.toNat)

/-- Modelled from the spec: the synthetic IV of the deterministic AEAD — a
16-byte keyed PRF of key, associated data and plaintext. -/
def synthIv (key ad pt : List Nat) : List Nat :=
  prfBytes 16 (1 :: (key ++ ad ++ pt))

/-- Modelled from the spec: `encrypt_internal` of the deterministic AEAD —
derive the synthetic IV from key, associated data and plaintext, encrypt
under a key split from the same material, output header ‖ iv ‖ ciphertext.
Equal plaintexts under equal (key, AD) produce identical output. -/
def encrypt_internal (key : List Nat) (key_id_header : KeyIdHeader)
    (field : PlaintextField) : Except AlloyError EncryptedField :=
  let ad := adBytes field.secret_path field.derivation_path
  let iv := synthIv key ad field.plaintext_field
  let ct := xorBytes field.plaintext_field (keystream key iv field.plaintext_field.length)
  .ok { encrypted_field := key_id_header.writeToBytes ++ iv ++ ct,
        secret_path := field.secret_path,
        derivation_path := field.derivation_path }

/-- Modelled from the spec: `decrypt_internal` of the deterministic AEAD —
split iv ‖ ciphertext, decrypt, recompute the synthetic IV from the recovered
plaintext and reject with `DecryptError` on mismatch. -/
def decrypt_internal (key : List Nat) (ciphertext : List Nat)
    (secret_path derivation_path : String) : Except AlloyError PlaintextField :=
  let ad := adBytes secret_path derivation_path
  let iv := ciphertext.take 16
  let ct := ciphertext.drop 16
  let pt := xorBytes ct (keystream key iv ct.length)
  if synthIv key ad pt = iv then
    .ok { plaintext_field := pt, secret_path := secret_path,
          derivation_path := derivation_path }
  else
    .error (.DecryptError "Deterministic decryption failed authentication.")

/-- Key choice given to the resolver (`DeriveKeyChoice`). -/
inductive DeriveKeyChoice where
  | Current
  | Specific (key_id : Nat)
  | InRotation
  deriving Repr, DecidableEq

/-- The nested path map of a TSP derive response:
SecretPath → DerivationPath → ordered list of DerivedKey. -/
def DerivedKeysMap : Type := List (String × List (String × List DerivedKey))

/-- Look up the ordered key list assigned to a `(secret_path, derivation_path)`
slot in a derive response. -/
def lookupKeys (m : DerivedKeysMap) (secret_path derivation_path : String) :
    Option (List DerivedKey) :=
  (List.lookup secret_path m).bind (fun d => List.lookup derivation_path d)

/-- The TSP key-derive response (`KeyDeriveResponse`). -/
structure KeyDeriveResponse where
  has_primary_config : Bool
  derived_keys : DerivedKeysMap

/-- Modelled from the spec: `get_key_for_path` — select a key from the
response by role.  Current picks the key marked `current = true` (failure:
a required key is absent → `InvalidKey`); Specific(k) picks the key whose
`tenant_secret_id` is `k`; InRotation picks the first key not marked
current.  A missing path is a `RequestError`. -/
def KeyDeriveResponse.get_key_for_path (resp : KeyDeriveResponse)
    (secret_path derivation_path : String) (choice : DeriveKeyChoice) :
    Except AlloyError DerivedKey :=
  match lookupKeys resp.derived_keys secret_path derivation_path with
  | none => .error (.RequestError "Failed to derive keys for the provided path using the TSP.")
  | some keys =>
    match choice with
    | .Current =>
      match keys.find? (fun k => k.current) with
      | some k => .ok k
      | none => .error (.InvalidKey "No current key exists for the provided path.")
    | .Specific key_id =>
      match keys.find? (fun k => k.tenant_secret_id == key_id) with
      | some k => .ok k
      | none => .error (.InvalidKey "The key specified by the document header was not found.")
    | .InRotation =>
      match keys.find? (fun k => !k.current) with
      | some k => .ok k
      | none => .error (.InvalidKey "No in-rotation key exists for the provided path.")

/-- Caller-supplied request metadata (`AlloyMetadata`); only the tenant id
participates in the embedded logic. -/
structure AlloyMetadata where
  tenant_id : String
  deriving Repr, DecidableEq

/-- The deterministic client's key-id header: provider SaaS Shield, payload
DeterministicField (`AlloyClient::create_key_id_header` instantiated at
`SaasShieldDeterministicClient`). -/
def createKeyIdHeader (key_id : Nat) : KeyIdHeader :=
  { edek_type := .SaasShield, payload_type := .DeterministicField, key_id := key_id }

namespace SaasShieldDeterministicClient

/-- `SaasShieldDeterministicClient::encrypt`: resolve the Current key for the
field's path from the awaited TSP response, then deterministically encrypt
under it, the header carrying the key's tenant secret id.  The awaited TSP
result is the `tsp` argument. -/
def encrypt (tsp : Except AlloyError KeyDeriveResponse)
    (plaintext_field : PlaintextField) : Except AlloyError EncryptedField := do
  let derived_keys ← tsp
  let derived_key ← derived_keys.get_key_for_path plaintext_field.secret_path
    plaintext_field.derivation_path .Current
  encrypt_internal derived_key.derived_key
    (createKeyIdHeader derived_key.tenant_secret_id) plaintext_field

/-- The resolution-independent core of `SaasShieldDeterministicClient::decrypt`
(lines 80–119): strip the header, obtain the derived key for
`Specific(key_id)` from the resolver `getKey`, reject with `InvalidKey` when
the resolved key's tenant secret id differs from the header key id, otherwise
decrypt. -/
def decryptCore (getKey : Nat → Except AlloyError DerivedKey)
    (encrypted_field : EncryptedField) : Except AlloyError PlaintextField := do
  let (key_id, ciphertext) ← decomposeKeyIdHeader .SaasShield .DeterministicField
    encrypted_field.encrypted_field
  let derived_key ← getKey key_id
  if derived_key.tenant_secret_id ≠ key_id then
    .error (.InvalidKey
      "The key ID in the document header and on the key derived for decryption did not match")
  else
    decrypt_internal derived_key.derived_key ciphertext
      encrypted_field.secret_path encrypted_field.derivation_path

/-- `SaasShieldDeterministicClient::decrypt`: the core with the resolver
instantiated to `get_key_for_path` on the awaited TSP response. -/
def decrypt (tsp : Except AlloyError KeyDeriveResponse)
    (encrypted_field : EncryptedField) : Except AlloyError PlaintextField := do
  let derived_keys ← tsp
  decryptCore
    (fun key_id => derived_keys.get_key_for_path encrypted_field.secret_path
      encrypted_field.derivation_path (.Specific key_id))
    encrypted_field

end SaasShieldDeterministicClient

/-- Modelled from the spec: `get_current` on a derive response — the key
marked current for the path, when one exists. -/
def KeyDeriveResponse.get_current (resp : KeyDeriveResponse)
    (secret_path derivation_path : String) : Option DerivedKey :=
  (lookupKeys resp.derived_keys secret_path derivation_path).bind
    (fun keys => keys.find? (fun k => k.current))

/-- Encrypt one plaintext field under every key of an ordered key list, each
ciphertext's header carrying its key's tenant secret id (the inner
`try_collect` of `generate_query_field_values`). -/
def encryptUnderKeys : List DerivedKey → PlaintextField →
    Except AlloyError (List EncryptedField)
  | [], _ => .ok []
  | k :: rest, pf => do
    let e ← encrypt_internal k.derived_key (createKeyIdHeader k.tenant_secret_id) pf
    let es ← encryptUnderKeys rest pf
    .ok (e :: es)

/-- The key-list lookup of `generate_query_field_values`: a missing path is
the `RequestError` the source raises. -/
def lookupKeysOrError (all_keys : DerivedKeysMap) (secret_path derivation_path : String) :
    Except AlloyError (List DerivedKey) :=
  match lookupKeys all_keys secret_path derivation_path with
  | some ks => .ok ks
  | none => .error (.RequestError "Failed to derive keys for provided path using the TSP.")

/-- The per-field loop of `generate_query_field_values`: look the field's key
list up in the derived-key map (a missing path is a `RequestError`), encrypt
under every key, and fail fast on the first error. -/
def queryFields (all_keys : DerivedKeysMap) :
    List (String × PlaintextField) →
    Except AlloyError (List (String × List EncryptedField))
  | [] => .ok []
  | (field_id, pf) :: rest => do
    let keys ← lookupKeysOrError all_keys pf.secret_path pf.derivation_path
    let encs ← encryptUnderKeys keys pf
    let r ← queryFields all_keys rest
    .ok ((field_id, encs) :: r)

/-- `SaasShieldDeterministicClient::generate_query_field_values`: with the
awaited result of `derive_keys_many_paths` (`tsp`), encrypt each input field
under every key available for its path. -/
def SaasShieldDeterministicClient.generate_query_field_values
    (tsp : Except AlloyError DerivedKeysMap)
    (fields_to_query : List (String × PlaintextField)) :
    Except AlloyError (List (String × List EncryptedField)) := do
  let all_keys ← tsp
  queryFields all_keys fields_to_query

/-- The two derive responses used by rotation (`RotationKeys`): the
originating tenant's keys and the new tenant's keys. -/
structure RotationKeys where
  original_keys : KeyDeriveResponse
  new_keys : KeyDeriveResponse

/-- Modelled from the spec: `check_rotation_no_op` — rotation is a no-op
exactly when the new tenant is the originating tenant and the new tenant's
current key id equals the original header key id. -/
def check_rotation_no_op (original_key_id : Nat) (maybe_current_key_id : Option Nat)
    (new_tenant_id : String) (metadata : AlloyMetadata) : Bool :=
  new_tenant_id == metadata.tenant_id && maybe_current_key_id == some original_key_id

/-- The per-field closure `reencrypt_field` of `rotate_fields`
(lines 190–230): parse the header, test for the rotation no-op, otherwise
decrypt under the originating tenant's `Specific(original_key_id)` key and
re-encrypt under the new tenant's Current key. -/
def reencryptField (keys : RotationKeys) (parsed_new_tenant_id : String)
    (metadata : AlloyMetadata) (encrypted_field : EncryptedField) :
    Except AlloyError EncryptedField := do
  let (original_key_id, ciphertext) ← decomposeKeyIdHeader .SaasShield
    .DeterministicField encrypted_field.encrypted_field
  let maybe_current_key_id :=
    (keys.new_keys.get_current encrypted_field.secret_path
      encrypted_field.derivation_path).map (fun k => k.tenant_secret_id)
  if check_rotation_no_op original_key_id maybe_current_key_id
      parsed_new_tenant_id metadata then
    .ok encrypted_field
  else do
    let original_key ← keys.original_keys.get_key_for_path
      encrypted_field.secret_path encrypted_field.derivation_path
      (.Specific original_key_id)
    let decrypted_field ← decrypt_internal original_key.derived_key ciphertext
      encrypted_field.secret_path encrypted_field.derivation_path
    let new_current_key ← keys.new_keys.get_key_for_path
      encrypted_field.secret_path encrypted_field.derivation_path .Current
    encrypt_internal new_current_key.derived_key
      (createKeyIdHeader new_current_key.tenant_secret_id) decrypted_field

/-- The rotation batch result (`DeterministicRotateResult`): per-field
successes and per-field failures. -/
structure DeterministicRotateResult where
  successes : List (String × EncryptedField)
  failures : List (String × AlloyError)
  deriving Repr, DecidableEq

/-- Modelled from the spec: `collection_to_batch_result` — apply the per-item
function to every item and split the outcomes into a successes map and a
failures map; no item's failure affects any other item. -/
def collectionToBatchResult (items : List (String × EncryptedField))
    (f : EncryptedField → Except AlloyError EncryptedField) :
    DeterministicRotateResult :=
  { successes := items.filterMap (fun p =>
      match f p.2 with
      | .ok v => some (p.1, v)
      | .error _ => none),
    failures := items.filterMap (fun p =>
      match f p.2 with
      | .ok _ => none
      | .error e => some (p.1, e)) }

/-- `SaasShieldDeterministicClient::rotate_fields`: default the new tenant to
the originating tenant, await the rotation keys (`tsp` is the awaited result
of `get_keys_for_rotation`; its failure is the only key-related top-level
failure), then re-encrypt each field independently into a batch result. -/
def SaasShieldDeterministicClient.rotate_fields
    (tsp : Except AlloyError RotationKeys)
    (encrypted_fields : List (String × EncryptedField))
    (metadata : AlloyMetadata) (new_tenant_id : Option String) :
    Except AlloyError DeterministicRotateResult := do
  let parsed_new_tenant_id := new_tenant_id.getD metadata.tenant_id
  let keys ← tsp
  .ok (collectionToBatchResult encrypted_fields
    (reencryptField keys parsed_new_tenant_id metadata))

/-- The protobuf `V4DocumentHeader` as used by the standard core: a signed
EDEK container with the encrypted DEK bytes and a 16-byte signature. -/
structure V4DocumentHeader where
  encrypted_dek : List Nat
  signature : List Nat
  deriving Repr, DecidableEq

/-- Modelled from the spec: protobuf serialisation of the signed-EDEK record —
a length-delimited field per non-empty component; the default (empty) header
serialises to no bytes, as the source test pins (the EDEK of an empty header
is exactly the 6 header bytes). -/
def V4DocumentHeader.writeToBytes (d : V4DocumentHeader) : List Nat :=
  (if d.encrypted_dek = [] then [] else
    10 :: d.encrypted_dek.length :: d.encrypted_dek) ++
  (if d.signature = [] then [] else
    18 :: d.signature.length :: d.signature)

/-- `Default::default()` for `V4DocumentHeader`: both components empty. -/
def defaultV4DocumentHeader : V4DocumentHeader :=
  { encrypted_dek := [], signature := [] }

/-- Modelled from the spec: the HMAC-style 16-byte MAC of the signed-EDEK
container, computed with the DEK itself. -/
def mac16 (key msg : List Nat) : List Nat :=
  prfBytes 16 (3 :: (key ++ msg))

/-- Modelled from the spec: `ironcore_documents::verify_signature` — the
embedded signature verifies exactly when it equals the MAC of the encrypted
DEK under the DEK. -/
def verify_signature (key : List Nat) (document : V4DocumentHeader) : Bool :=
  document.signature == mac16 key document.encrypted_dek

/-- `verify_sig` (standard.rs lines 67–78): `Ok(())` when the EDEK signature
verifies under the DEK, otherwise the decrypt error the source raises. -/
def verify_sig (aes_dek : List Nat) (document : V4DocumentHeader) :
    Except CloakedAiError Unit :=
  if verify_signature aes_dek document then
    .ok ()
  else
    .error (.DecryptError "EDEK signature verification failed.")

/-- A CSPRNG as a byte stream with a position; drawing advances the
position. -/
structure Rng where
  stream : Nat → Nat
  pos : Nat

/-- Draw `n` bytes from the RNG, advancing it. -/
def Rng.draw (r : Rng) (n : Nat) : List Nat × Rng :=
  ((List.range n).map (fun i => r.stream (r.pos + i) % 256),
   { stream := r.stream, pos := r.pos + n })

/-- The 5 leading bytes of a detached-document payload (a version byte and
the magic "IRON"), pinned by the source test vector. -/
def detachedDocumentMagic : List Nat := [0, 73, 82, 79, 78]

/-- Modelled from the spec: `ironcore_documents::aes::encrypt_detached_document`
— draw a fresh random 12-byte nonce, AEAD-encrypt, return
magic ‖ nonce ‖ ciphertext ‖ 16-byte tag together with the advanced RNG. -/
def encrypt_detached_document (rng : Rng) (key : List Nat)
    (plaintext : List Nat) : List Nat × Rng :=
  let (nonce, rng2) := rng.draw 12
  let ct := xorBytes plaintext (keystream key nonce plaintext.length)
  let tag := mac16 key (nonce ++ ct)
  (detachedDocumentMagic ++ nonce ++ ct ++ tag, rng2)

/-- Modelled from the spec: `ironcore_documents::aes::decrypt_detached_document`
— re-split the payload, verify the tag and decrypt; any authentication or
framing failure is a `DecryptError`. -/
def decrypt_detached_document (key : List Nat) (payload : List Nat) :
    Except CloakedAiError (List Nat) :=
  if payload.take 5 = detachedDocumentMagic ∧ 28 ≤ (payload.drop 5).length then
    let body := payload.drop 5
    let nonce := body.take 12
    let rest := body.drop 12
    let ct := rest.take (rest.length - 16)
    let tag := rest.drop (rest.length - 16)
    if tag = mac16 key (nonce ++ ct) then
      .ok (xorBytes ct (keystream key nonce ct.length))
    else
      .error (.DecryptError "Detached document decryption failed authentication.")
  else
    .error (.DecryptError "Detached document payload was malformed.")

/-- Standard-mode encrypted document: the EDEK bytes (header ‖ signed-EDEK
record) and the per-field ciphertext map. -/
structure EncryptedDocument where
  edek : List Nat
  document : List (String × List Nat)
  deriving Repr, DecidableEq

/-- `KeyIdHeader::put_header_on_document`: prepend the 6 header bytes. -/
def put_header_on_document (h : KeyIdHeader) (doc : List Nat) : List Nat :=
  h.writeToBytes ++ doc

/-- The field loop of `encrypt_document_core`: encrypt each field
independently under the DEK, threading the RNG so each field draws a fresh
nonce. -/
def encryptFieldsCore : Rng → List Nat → List (String × List Nat) →
    List (String × List Nat)
  | _, _, [] => []
  | rng, aes_dek, (label, plaintext) :: rest =>
    let (c, rng2) := encrypt_detached_document rng aes_dek plaintext
    (label, c) :: encryptFieldsCore rng2 aes_dek rest

/-- `encrypt_document_core` (standard.rs lines 80–110): encrypt every field
under the DEK with fresh nonces and assemble the EDEK as
header ‖ serialised V4 document header. -/
def encrypt_document_core (document : List (String × List Nat)) (rng : Rng)
    (aes_dek : List Nat) (key_id_header : KeyIdHeader)
    (v4_doc : V4DocumentHeader) : Except CloakedAiError EncryptedDocument :=
  .ok { edek := put_header_on_document key_id_header v4_doc.writeToBytes,
        document := encryptFieldsCore rng aes_dek document }

/-- `decrypt_document_core` (standard.rs lines 112–124): decrypt every field
under the DEK, failing fast on the first field error. -/
def decrypt_document_core : List (String × List Nat) → List Nat →
    Except CloakedAiError (List (String × List Nat))
  | [], _ => .ok []
  | (label, ciphertext) :: rest, dek => do
    let pt ← decrypt_detached_document dek ciphertext
    let r ← decrypt_document_core rest dek
    .ok ((label, pt) :: r)


/-! ## Concrete fixtures (the derived keys and field of the source tests) -/

/-- The plaintext field of `test_deterministic_encrypt_current`. -/
def pfW : PlaintextField :=
  { plaintext_field := [1, 2, 3], secret_path := "bar", derivation_path := "foo" }

/-- Derived key 1 of the source tests: all-1s key bytes, id 1, current. -/
def dkW : DerivedKey :=
  { derived_key := List.replicate 64 1, tenant_secret_id := 1, current := true }

/-- Derived key 2 of the source tests: all-2s key bytes, id 2, not current. -/
def dkW2 : DerivedKey :=
  { derived_key := List.replicate 64 2, tenant_secret_id := 2, current := false }

/-- A derive response holding both test keys under ("bar", "foo"). -/
def respW : KeyDeriveResponse :=
  { has_primary_config := true, derived_keys := [("bar", [("foo", [dkW, dkW2])])] }

/-- A second derive response with the same Current key but a different key
list, to exhibit that only the resolved key determines the ciphertext. -/
def respW2 : KeyDeriveResponse :=
  { has_primary_config := true, derived_keys := [("bar", [("foo", [dkW])])] }

/-- The deterministic ciphertext of `pfW` under `dkW` in this model. -/
def efW : EncryptedField :=
  { encrypted_field := [0, 0, 0, 1, 0, 0, 61, 184, 51, 174, 41, 164, 31, 154, 21,
      144, 11, 134, 1, 124, 247, 114, 220, 34, 96],
    secret_path := "bar", derivation_path := "foo" }

/-- The body of `efW` after the 6 header bytes. -/
def efWBody : List Nat :=
  [61, 184, 51, 174, 41, 164, 31, 154, 21, 144, 11, 134, 1, 124, 247, 114, 220, 34, 96]

/-- A resolver that answers every `Specific` request with key id 2 — the
misbehaving-TSP scenario of the key-id mismatch guard. -/
def mismatchResolver : Nat → Except AlloyError DerivedKey := fun _ => .ok dkW2


/-- A metadata fixture naming the originating tenant. -/
def metaW : AlloyMetadata := { tenant_id := "tenant" }

/-- Rotation keys where the originating and the new tenant both hold the test
response. -/
def rotKeysW : RotationKeys := { original_keys := respW, new_keys := respW }


/-- The deterministic ciphertext of `pfW` under `dkW2` in this model. -/
def efW2 : EncryptedField :=
  { encrypted_field := [0, 0, 0, 2, 0, 0, 189, 56, 179, 46, 169, 36, 159, 26, 149,
      16, 139, 6, 129, 252, 119, 242, 92, 162, 224],
    secret_path := "bar", derivation_path := "foo" }


/-- An RNG fixture: the all-zero byte stream at position 0. -/
def rngW : Rng := { stream := fun _ => 0, pos := 0 }

/-- A signed-EDEK container whose signature cannot verify (empty signature). -/
def badV4 : V4DocumentHeader := { encrypted_dek := [1], signature := [] }

/-- A two-field plaintext document fixture. -/
def docW : List (String × List Nat) := [("foo", [100]), ("bar", [])]

/-- The S1 header: provider SaaS Shield, payload StandardEdek, key id 1. -/
def hdrStdW : KeyIdHeader :=
  { edek_type := .SaasShield, payload_type := .StandardEdek, key_id := 1 }

/-- The encrypted document produced from `docW` under `rngW` and the all-zero
DEK. -/
def resW : EncryptedDocument :=
  { edek := put_header_on_document hdrStdW defaultV4DocumentHeader.writeToBytes,
    document := encryptFieldsCore rngW (List.replicate 32 0) docW }

/-- The detached-document ciphertext of `[100]` under the all-zero DEK drawn
from `rngW` in this model. -/
def blobW : List Nat :=
  [0, 73, 82, 79, 78, 0, 0, 0, 0, 0, 0, 0, 0, 0, 0, 0, 0, 73, 36, 29, 22, 15, 8,
   1, 250, 243, 236, 229, 222, 215, 208, 201, 194, 187]

/-! ## Helper lemmas -/

theorem prfBytes_length (n : Nat) (seed : List Nat) : (prfBytes n seed).length = n := by
  simp [prfBytes]

theorem keystream_length (key iv : List Nat) (n : Nat) :
    (keystream key iv n).length = n := by
  simp [keystream, prfBytes_length]

theorem synthIv_length (key ad pt : List Nat) : (synthIv key ad pt).length = 16 := by
  simp [synthIv, prfBytes_length]

theorem xorBytes_length (xs ys : List Nat) :
    (xorBytes xs ys).length = min xs.length ys.length := by
  simp [xorBytes]

theorem xorBytes_xorBytes (pt ks : List Nat) (h : pt.length ≤ ks.length) :
    xorBytes (xorBytes pt ks) ks = pt := by
  induction pt generalizing ks with
  | nil => simp [xorBytes]
  | cons a rest ih =>
    cases ks with
    | nil => simp at h
    | cons b ks2 =>
      simp only [xorBytes, List.zipWith_cons_cons] at ih ⊢
      rw [Nat.xor_cancel_right, ih ks2 (by simpa using h)]

theorem writeToBytes_length (h : KeyIdHeader) : h.writeToBytes.length = 6 := by
  simp [KeyIdHeader.writeToBytes, u32BE]

theorem parseTypeByte_combined (e : EdekType) (p : PayloadType) :
    parseTypeByte (edekTypeByte e + payloadTypeByte p) = some (e, p) := by
  cases e <;> cases p <;> rfl

theorem take_append_len (l1 : List Nat) (n : Nat) (h : l1.length = n) :
    ∀ l2 : List Nat, (l1 ++ l2).take n = l1 := by
  intro l2
  subst h
  exact List.take_left l1 l2

theorem drop_append_len (l1 : List Nat) (n : Nat) (h : l1.length = n) :
    ∀ l2 : List Nat, (l1 ++ l2).drop n = l2 := by
  intro l2
  subst h
  exact List.drop_left l1 l2

/-- Decoding inverts encoding: stripping the header of a well-formed
(`key_id < 2^32`) ciphertext recovers the key id and the untouched body. -/
theorem decompose_writeToBytes (e : EdekType) (p : PayloadType) (kid : Nat)
    (rest : List Nat) (hk : kid < 4294967296) :
    decomposeKeyIdHeader e p
      ((KeyIdHeader.mk e p kid).writeToBytes ++ rest) = .ok (kid, rest) := by
  simp only [KeyIdHeader.writeToBytes, u32BE, List.cons_append, List.nil_append,
    decomposeKeyIdHeader, parseTypeByte_combined]
  simp only [and_self, if_true, reduceIte, eq_self_iff_true]
  congr 2
  omega

/-- The deterministic AEAD inverts itself: decrypting the iv ‖ ciphertext body
produced by encryption recovers the plaintext and its paths. -/
theorem decrypt_internal_body (key pt : List Nat) (sp dp : String) :
    decrypt_internal key
      (synthIv key (adBytes sp dp) pt ++
        xorBytes pt (keystream key (synthIv key (adBytes sp dp) pt) pt.length))
      sp dp =
      .ok { plaintext_field := pt, secret_path := sp, derivation_path := dp } := by
  have hiv : (synthIv key (adBytes sp dp) pt).length = 16 := synthIv_length ..
  have hks : (keystream key (synthIv key (adBytes sp dp) pt) pt.length).length = pt.length :=
    keystream_length ..
  have hct : (xorBytes pt (keystream key (synthIv key (adBytes sp dp) pt) pt.length)).length
      = pt.length := by
    rw [xorBytes_length, hks, Nat.min_self]
  simp only [decrypt_internal, take_append_len _ _ hiv, drop_append_len _ _ hiv, hct]
  rw [xorBytes_xorBytes pt _ (le_of_eq hks.symm)]
  simp

/-- Unfolding `encrypt_internal`: the result is always `ok` and its bytes are
header ‖ iv ‖ ciphertext over the field's paths. -/
theorem encrypt_internal_eq (key : List Nat) (h : KeyIdHeader) (pf : PlaintextField) :
    encrypt_internal key h pf =
      .ok { encrypted_field := h.writeToBytes ++
              (synthIv key (adBytes pf.secret_path pf.derivation_path) pf.plaintext_field ++
                xorBytes pf.plaintext_field
                  (keystream key
                    (synthIv key (adBytes pf.secret_path pf.derivation_path) pf.plaintext_field)
                    pf.plaintext_field.length)),
            secret_path := pf.secret_path,
            derivation_path := pf.derivation_path } := by
  simp [encrypt_internal, List.append_assoc]

/-! ## Claim theorems -/

/-- C1: For every plaintext field F (carrying its secret_path and
derivation_path), when the TSP resolver yields a Current key for F's path on
encryption and yields that same key for Specific(key_id) on decryption, the
deterministic client satisfies decrypt(encrypt(F)) = F: the returned
plaintext bytes, secret_path and derivation_path equal the originals. -/
theorem deterministic_roundtrip
    (resp_e resp_d : KeyDeriveResponse) (pf : PlaintextField) (K : DerivedKey)
    (ef : EncryptedField)
    (hK : resp_e.get_key_for_path pf.secret_path pf.derivation_path .Current = .ok K)
    (hK2 : resp_d.get_key_for_path pf.secret_path pf.derivation_path
      (.Specific K.tenant_secret_id) = .ok K)
    (hbound : K.tenant_secret_id < 4294967296)
    (henc : SaasShieldDeterministicClient.encrypt (.ok resp_e) pf = .ok ef) :
    SaasShieldDeterministicClient.decrypt (.ok resp_d) ef = .ok pf := by
  simp only [SaasShieldDeterministicClient.encrypt, bind, Except.bind, hK,
    encrypt_internal_eq, Except.ok.injEq] at henc
  subst henc
  simp only [SaasShieldDeterministicClient.decrypt, SaasShieldDeterministicClient.decryptCore,
    bind, Except.bind, createKeyIdHeader]
  rw [decompose_writeToBytes _ _ _ _ hbound]
  simp only [hK2]
  rw [if_neg (by simp)]
  exact decrypt_internal_body K.derived_key pf.plaintext_field pf.secret_path pf.derivation_path

theorem deterministic_roundtrip_witness :
    SaasShieldDeterministicClient.decrypt (.ok respW) efW = .ok pfW :=
  deterministic_roundtrip respW respW pfW dkW efW rfl rfl (by decide) rfl

/-- C2: When the resolver answers Specific(key_id) with a DerivedKey whose
tenant_secret_id differs from the key_id parsed from the field's header,
decrypt returns the InvalidKey error and does not attempt decryption; when
the ids are equal, decryption proceeds. -/
theorem decrypt_key_id_mismatch_guard
    (getKey : Nat → Except AlloyError DerivedKey) (ef : EncryptedField)
    (kid : Nat) (body : List Nat) (K : DerivedKey)
    (hdec : decomposeKeyIdHeader .SaasShield .DeterministicField ef.encrypted_field
      = .ok (kid, body))
    (hget : getKey kid = .ok K) :
    (K.tenant_secret_id ≠ kid →
      SaasShieldDeterministicClient.decryptCore getKey ef =
        .error (.InvalidKey
          "The key ID in the document header and on the key derived for decryption did not match")) ∧
    (K.tenant_secret_id = kid →
      SaasShieldDeterministicClient.decryptCore getKey ef =
        decrypt_internal K.derived_key body ef.secret_path ef.derivation_path) := by
  constructor
  · intro hne
    simp only [SaasShieldDeterministicClient.decryptCore, bind, Except.bind, hdec, hget]
    rw [if_pos hne]
  · intro heq
    simp only [SaasShieldDeterministicClient.decryptCore, bind, Except.bind, hdec, hget]
    rw [if_neg (by simp [heq])]

theorem decrypt_key_id_mismatch_guard_witness :
    SaasShieldDeterministicClient.decryptCore mismatchResolver efW =
      .error (.InvalidKey
        "The key ID in the document header and on the key derived for decryption did not match") :=
  (decrypt_key_id_mismatch_guard mismatchResolver efW 1 efWBody dkW2
    rfl rfl).1 (by decide)

/-- C8: Two deterministic encrypt calls on the same plaintext bytes,
secret_path, derivation_path and the same Current derived key produce
byte-identical EncryptedField outputs — the deterministic path consumes no
randomness, so the result depends only on the field and the resolved key. -/
theorem deterministic_encrypt_no_randomness
    (resp1 resp2 : KeyDeriveResponse) (pf : PlaintextField) (K : DerivedKey)
    (h1 : resp1.get_key_for_path pf.secret_path pf.derivation_path .Current = .ok K)
    (h2 : resp2.get_key_for_path pf.secret_path pf.derivation_path .Current = .ok K) :
    SaasShieldDeterministicClient.encrypt (.ok resp1) pf =
      SaasShieldDeterministicClient.encrypt (.ok resp2) pf := by
  simp only [SaasShieldDeterministicClient.encrypt, bind, Except.bind, h1, h2]

theorem deterministic_encrypt_no_randomness_witness :
    SaasShieldDeterministicClient.encrypt (.ok respW) pfW =
      SaasShieldDeterministicClient.encrypt (.ok respW2) pfW :=
  deterministic_encrypt_no_randomness respW respW2 pfW dkW rfl rfl

/-- C3: For every field in a rotate_fields batch, if new_tenant_id equals the
originating tenant (metadata.tenant_id) and the new tenant's Current key id
for the field's (secret_path, derivation_path) equals the key_id in the
field's header, the output for that field is the input field unchanged,
byte-for-byte: the per-field closure short-circuits to `ok` of the input
before any decryption or re-encryption. -/
theorem rotate_noop_identity
    (keys : RotationKeys) (fields : List (String × EncryptedField))
    (metadata : AlloyMetadata) (new_tenant_id : Option String)
    (field_id : String) (ef : EncryptedField) (kid : Nat) (body : List Nat)
    (K : DerivedKey)
    (hmem : (field_id, ef) ∈ fields)
    (htenant : new_tenant_id.getD metadata.tenant_id = metadata.tenant_id)
    (hdec : decomposeKeyIdHeader .SaasShield .DeterministicField ef.encrypted_field
      = .ok (kid, body))
    (hcur : keys.new_keys.get_current ef.secret_path ef.derivation_path = some K)
    (hid : K.tenant_secret_id = kid) :
    reencryptField keys (new_tenant_id.getD metadata.tenant_id) metadata ef = .ok ef ∧
    ∃ r, SaasShieldDeterministicClient.rotate_fields (.ok keys) fields metadata
        new_tenant_id = .ok r ∧
      (field_id, ef) ∈ r.successes := by
  have hre : reencryptField keys (new_tenant_id.getD metadata.tenant_id) metadata ef
      = .ok ef := by
    simp only [reencryptField, bind, Except.bind, hdec, hcur, Option.map_some]
    rw [if_pos (by simp [check_rotation_no_op, htenant, hid])]
  refine ⟨hre, _, rfl, ?_⟩
  exact List.mem_filterMap.mpr ⟨(field_id, ef), hmem, by simp [hre]⟩

theorem rotate_noop_identity_witness :
    reencryptField rotKeysW ((none : Option String).getD metaW.tenant_id) metaW efW
      = .ok efW ∧
    ∃ r, SaasShieldDeterministicClient.rotate_fields (.ok rotKeysW) [("f1", efW)]
        metaW none = .ok r ∧
      ("f1", efW) ∈ r.successes :=
  rotate_noop_identity rotKeysW [("f1", efW)] metaW none "f1" efW 1 efWBody dkW
    (by simp) rfl rfl rfl rfl

/-- C4: rotate_fields never aborts because one field fails: each field's
outcome is captured independently into a successes map or a failures map,
and a top-level error is returned only when the TSP key-derivation call
itself fails. -/
theorem rotate_fields_batch_semantics
    (keys : RotationKeys) (tsp_err : AlloyError)
    (fields : List (String × EncryptedField)) (metadata : AlloyMetadata)
    (new_tenant_id : Option String) (field_id : String) (ef : EncryptedField)
    (hmem : (field_id, ef) ∈ fields) :
    SaasShieldDeterministicClient.rotate_fields (.error tsp_err) fields metadata
      new_tenant_id = .error tsp_err ∧
    ∃ r, SaasShieldDeterministicClient.rotate_fields (.ok keys) fields metadata
        new_tenant_id = .ok r ∧
      ((∃ ef2, reencryptField keys (new_tenant_id.getD metadata.tenant_id) metadata ef
          = .ok ef2 ∧ (field_id, ef2) ∈ r.successes) ∨
       (∃ err, reencryptField keys (new_tenant_id.getD metadata.tenant_id) metadata ef
          = .error err ∧ (field_id, err) ∈ r.failures)) := by
  refine ⟨rfl, _, rfl, ?_⟩
  cases hre : reencryptField keys (new_tenant_id.getD metadata.tenant_id) metadata ef with
  | ok v =>
    exact .inl ⟨v, rfl, List.mem_filterMap.mpr ⟨(field_id, ef), hmem, by simp [hre]⟩⟩
  | error err =>
    exact .inr ⟨err, rfl, List.mem_filterMap.mpr ⟨(field_id, ef), hmem, by simp [hre]⟩⟩

theorem rotate_fields_batch_semantics_witness :
    SaasShieldDeterministicClient.rotate_fields (.error (.RequestError "TSP failure"))
      [("f1", efW)] metaW none = .error (.RequestError "TSP failure") ∧
    ∃ r, SaasShieldDeterministicClient.rotate_fields (.ok rotKeysW) [("f1", efW)]
        metaW none = .ok r ∧
      ((∃ ef2, reencryptField rotKeysW ((none : Option String).getD metaW.tenant_id)
          metaW efW = .ok ef2 ∧ ("f1", ef2) ∈ r.successes) ∨
       (∃ err, reencryptField rotKeysW ((none : Option String).getD metaW.tenant_id)
          metaW efW = .error err ∧ ("f1", err) ∈ r.failures)) :=
  rotate_fields_batch_semantics rotKeysW (.RequestError "TSP failure") [("f1", efW)]
    metaW none "f1" efW (by simp)

theorem lookupKeysOrError_ok {m : DerivedKeysMap} {sp dp : String} {keys : List DerivedKey}
    (h : lookupKeysOrError m sp dp = .ok keys) : lookupKeys m sp dp = some keys := by
  unfold lookupKeysOrError at h
  cases hl : lookupKeys m sp dp with
  | some ks => rw [hl] at h; injection h with h; rw [h]
  | none => rw [hl] at h; cases h

theorem filter_current_count (keys : List DerivedKey) :
    keys.length = (keys.filter (fun k => k.current)).length +
      (keys.filter (fun k => !k.current)).length := by
  induction keys with
  | nil => rfl
  | cons k rest ih =>
    cases hc : k.current <;> simp [List.filter, hc, ih] <;> omega

theorem encryptUnderKeys_spec (keys : List DerivedKey) (pf : PlaintextField) :
    ∀ encs, encryptUnderKeys keys pf = .ok encs →
    encs.length = keys.length ∧
    ∀ i (hi : i < keys.length) (hi2 : i < encs.length),
      encrypt_internal (keys.get ⟨i, hi⟩).derived_key
        (createKeyIdHeader (keys.get ⟨i, hi⟩).tenant_secret_id) pf
        = .ok (encs.get ⟨i, hi2⟩) := by
  induction keys with
  | nil =>
    intro encs h
    simp only [encryptUnderKeys] at h
    injection h with h
    subst h
    exact ⟨rfl, fun i hi => absurd hi (Nat.not_lt_zero i)⟩
  | cons k rest ih =>
    intro encs h
    rw [encryptUnderKeys] at h
    simp only [bind, Except.bind] at h
    cases henc : encrypt_internal k.derived_key (createKeyIdHeader k.tenant_secret_id) pf with
    | error e => rw [encrypt_internal_eq] at henc; cases henc
    | ok e0 =>
      rw [henc] at h
      cases hrest : encryptUnderKeys rest pf with
      | error e => rw [hrest] at h; cases h
      | ok es =>
        rw [hrest] at h
        injection h with h
        subst h
        obtain ⟨hlen, hidx⟩ := ih es hrest
        refine ⟨by simp [hlen], ?_⟩
        intro i hi hi2
        cases i with
        | zero => exact henc
        | succ j => exact hidx j (by simpa using hi) (by simpa using hi2)

theorem queryFields_spec (all_keys : DerivedKeysMap) :
    ∀ (fields : List (String × PlaintextField)) r,
    queryFields all_keys fields = .ok r →
    List.Forall₂ (fun fp out =>
      out.1 = fp.1 ∧
      ∃ keys, lookupKeys all_keys fp.2.secret_path fp.2.derivation_path = some keys ∧
        encryptUnderKeys keys fp.2 = .ok out.2) fields r := by
  intro fields
  induction fields with
  | nil =>
    intro r h
    simp only [queryFields] at h
    injection h with h
    subst h
    exact .nil
  | cons fp rest ih =>
    intro r h
    obtain ⟨fid, pf⟩ := fp
    rw [queryFields] at h
    simp only [bind, Except.bind] at h
    cases hlk : lookupKeysOrError all_keys pf.secret_path pf.derivation_path with
    | error e => simp only [hlk] at h; exact (Except.noConfusion h)
    | ok keys =>
      simp only [hlk] at h
      cases henc : encryptUnderKeys keys pf with
      | error e => simp only [henc] at h; exact (Except.noConfusion h)
      | ok encs =>
        simp only [henc] at h
        cases hrest : queryFields all_keys rest with
        | error e => simp only [hrest] at h; exact (Except.noConfusion h)
        | ok rr =>
          simp only [hrest, Except.ok.injEq] at h
          subst h
          exact .cons ⟨rfl, keys, lookupKeysOrError_ok hlk, henc⟩ (ih rr hrest)

theorem encrypt_internal_roundtrip (key : List Nat) (h : KeyIdHeader)
    (pf : PlaintextField) (enc : EncryptedField)
    (henc : encrypt_internal key h pf = .ok enc) :
    decrypt_internal key (enc.encrypted_field.drop 6) pf.secret_path pf.derivation_path
      = .ok pf := by
  rw [encrypt_internal_eq] at henc
  injection henc with henc
  subst henc
  simp only []
  rw [drop_append_len _ _ (writeToBytes_length h)]
  exact decrypt_internal_body key pf.plaintext_field pf.secret_path pf.derivation_path

/-- C7: For every input field in a generate_query_field_values call that
succeeds, the result maps that field's id to exactly (1 + |InRotation|)
EncryptedFields — one per key available for the field's path, Current plus
every InRotation key — in the same order the resolver returned the keys, and
each ciphertext round-trips (decrypts to the input plaintext) under its
corresponding key. -/
theorem generate_query_coverage
    (all_keys : DerivedKeysMap) (fields : List (String × PlaintextField))
    (r : List (String × List EncryptedField))
    (h : SaasShieldDeterministicClient.generate_query_field_values (.ok all_keys)
      fields = .ok r) :
    List.Forall₂ (fun fp out =>
      out.1 = fp.1 ∧
      ∃ keys, lookupKeys all_keys fp.2.secret_path fp.2.derivation_path = some keys ∧
        out.2.length = keys.length ∧
        ((keys.filter (fun k => k.current)).length = 1 →
          out.2.length = 1 + (keys.filter (fun k => !k.current)).length) ∧
        ∀ i (hi : i < keys.length) (hi2 : i < out.2.length),
          encrypt_internal (keys.get ⟨i, hi⟩).derived_key
            (createKeyIdHeader (keys.get ⟨i, hi⟩).tenant_secret_id) fp.2
            = .ok (out.2.get ⟨i, hi2⟩) ∧
          decrypt_internal (keys.get ⟨i, hi⟩).derived_key
            ((out.2.get ⟨i, hi2⟩).encrypted_field.drop 6)
            fp.2.secret_path fp.2.derivation_path = .ok fp.2) fields r := by
  have h2 : queryFields all_keys fields = .ok r := h
  refine (queryFields_spec all_keys fields r h2).imp ?_
  rintro fp out ⟨hfst, keys, hlk, henc⟩
  obtain ⟨hlen, hidx⟩ := encryptUnderKeys_spec keys fp.2 out.2 henc
  refine ⟨hfst, keys, hlk, hlen, ?_, ?_⟩
  · intro hcur1
    rw [hlen, filter_current_count keys, hcur1]
  · intro i hi hi2
    have he := hidx i hi hi2
    exact ⟨he, encrypt_internal_roundtrip _ _ _ _ he⟩

theorem generate_query_coverage_witness :
    List.Forall₂ (fun fp out =>
      out.1 = fp.1 ∧
      ∃ keys, lookupKeys respW.derived_keys fp.2.secret_path fp.2.derivation_path
          = some keys ∧
        out.2.length = keys.length ∧
        ((keys.filter (fun k => k.current)).length = 1 →
          out.2.length = 1 + (keys.filter (fun k => !k.current)).length) ∧
        ∀ i (hi : i < keys.length) (hi2 : i < out.2.length),
          encrypt_internal (keys.get ⟨i, hi⟩).derived_key
            (createKeyIdHeader (keys.get ⟨i, hi⟩).tenant_secret_id) fp.2
            = .ok (out.2.get ⟨i, hi2⟩) ∧
          decrypt_internal (keys.get ⟨i, hi⟩).derived_key
            ((out.2.get ⟨i, hi2⟩).encrypted_field.drop 6)
            fp.2.secret_path fp.2.derivation_path = .ok fp.2)
      [("f1", pfW)] [("f1", [efW, efW2])] :=
  generate_query_coverage respW.derived_keys [("f1", pfW)] [("f1", [efW, efW2])] rfl

theorem encrypt_internal_header (key : List Nat) (kid : Nat) (pf : PlaintextField)
    (enc : EncryptedField) (hb : kid < 4294967296)
    (henc : encrypt_internal key (createKeyIdHeader kid) pf = .ok enc) :
    ∃ body, decomposeKeyIdHeader .SaasShield .DeterministicField enc.encrypted_field
      = .ok (kid, body) := by
  rw [encrypt_internal_eq] at henc
  injection henc with henc
  subst henc
  exact ⟨_, decompose_writeToBytes .SaasShield .DeterministicField kid _ hb⟩

/-- C9: For every ciphertext produced by the deterministic engine — by
encrypt, by generate_query_field_values (whose per-key loop is
encryptUnderKeys), or by the re-encryption branch of rotate_fields — the
key_id in the prepended KeyIdHeader equals the tenant_secret_id of the
DerivedKey used to encrypt it. -/
theorem header_binding :
    (∀ (resp : KeyDeriveResponse) (pf : PlaintextField) (K : DerivedKey)
        (ef : EncryptedField),
      resp.get_key_for_path pf.secret_path pf.derivation_path .Current = .ok K →
      K.tenant_secret_id < 4294967296 →
      SaasShieldDeterministicClient.encrypt (.ok resp) pf = .ok ef →
      ∃ body, decomposeKeyIdHeader .SaasShield .DeterministicField ef.encrypted_field
        = .ok (K.tenant_secret_id, body)) ∧
    (∀ (keys : List DerivedKey) (pf : PlaintextField) (encs : List EncryptedField)
        (i : Nat) (hi : i < keys.length) (hi2 : i < encs.length),
      encryptUnderKeys keys pf = .ok encs →
      (keys.get ⟨i, hi⟩).tenant_secret_id < 4294967296 →
      ∃ body, decomposeKeyIdHeader .SaasShield .DeterministicField
          (encs.get ⟨i, hi2⟩).encrypted_field
        = .ok ((keys.get ⟨i, hi⟩).tenant_secret_id, body)) ∧
    (∀ (keys : RotationKeys) (new_tenant : String) (metadata : AlloyMetadata)
        (ef ef2 : EncryptedField) (K : DerivedKey) (kid : Nat) (body : List Nat),
      decomposeKeyIdHeader .SaasShield .DeterministicField ef.encrypted_field
        = .ok (kid, body) →
      check_rotation_no_op kid
        ((keys.new_keys.get_current ef.secret_path ef.derivation_path).map
          (fun k => k.tenant_secret_id)) new_tenant metadata = false →
      keys.new_keys.get_key_for_path ef.secret_path ef.derivation_path .Current
        = .ok K →
      K.tenant_secret_id < 4294967296 →
      reencryptField keys new_tenant metadata ef = .ok ef2 →
      ∃ body2, decomposeKeyIdHeader .SaasShield .DeterministicField ef2.encrypted_field
        = .ok (K.tenant_secret_id, body2)) := by
  refine ⟨?_, ?_, ?_⟩
  · intro resp pf K ef hK hb henc
    simp only [SaasShieldDeterministicClient.encrypt, bind, Except.bind, hK] at henc
    exact encrypt_internal_header K.derived_key K.tenant_secret_id pf ef hb henc
  · intro keys pf encs i hi hi2 henc hb
    exact encrypt_internal_header _ _ pf _ hb
      ((encryptUnderKeys_spec keys pf encs henc).2 i hi hi2)
  · intro keys new_tenant metadata ef ef2 K kid body hdec hnoop hK hb hre
    rw [reencryptField] at hre
    simp only [bind, Except.bind, hdec, hnoop] at hre
    cases hok : keys.original_keys.get_key_for_path ef.secret_path ef.derivation_path
        (.Specific kid) with
    | error e => simp only [hok] at hre; exact (Except.noConfusion hre)
    | ok okey =>
      simp only [hok] at hre
      cases hdecr : decrypt_internal okey.derived_key body ef.secret_path
          ef.derivation_path with
      | error e => simp only [hdecr] at hre; exact (Except.noConfusion hre)
      | ok df =>
        simp only [hdecr, hK] at hre
        exact encrypt_internal_header K.derived_key K.tenant_secret_id df ef2 hb hre
theorem header_binding_witness :
    (∃ body, decomposeKeyIdHeader .SaasShield .DeterministicField efW.encrypted_field
      = .ok (dkW.tenant_secret_id, body)) ∧
    (∃ body, decomposeKeyIdHeader .SaasShield .DeterministicField efW2.encrypted_field
      = .ok (dkW2.tenant_secret_id, body)) ∧
    (∃ body2, decomposeKeyIdHeader .SaasShield .DeterministicField efW.encrypted_field
      = .ok (dkW.tenant_secret_id, body2)) :=
  ⟨header_binding.1 respW pfW dkW efW rfl (by decide) rfl,
   header_binding.2.1 [dkW, dkW2] pfW [efW, efW2] 1 (by decide) (by decide) rfl (by decide),
   header_binding.2.2 rotKeysW "other" metaW efW2 efW dkW 2
     (efW2.encrypted_field.drop 6) rfl rfl rfl (by decide) rfl⟩

theorem nonce_length (rng : Rng) : (rng.draw 12).1.length = 12 := by
  simp [Rng.draw]

theorem decrypt_detached_parts (key pt nonce : List Nat) (hn : nonce.length = 12) :
    decrypt_detached_document key
      (detachedDocumentMagic ++ (nonce ++ (xorBytes pt (keystream key nonce pt.length) ++
        mac16 key (nonce ++ xorBytes pt (keystream key nonce pt.length))))) = .ok pt := by
  have hct : (xorBytes pt (keystream key nonce pt.length)).length = pt.length := by
    rw [xorBytes_length, keystream_length, Nat.min_self]
  have htag : (mac16 key (nonce ++ xorBytes pt (keystream key nonce pt.length))).length
      = 16 := prfBytes_length ..
  have hrest : (xorBytes pt (keystream key nonce pt.length) ++
      mac16 key (nonce ++ xorBytes pt (keystream key nonce pt.length))).length - 16
      = pt.length := by
    rw [List.length_append, hct, htag]
    omega
  simp only [decrypt_detached_document, take_append_len detachedDocumentMagic 5 rfl,
    drop_append_len detachedDocumentMagic 5 rfl,
    take_append_len nonce 12 hn, drop_append_len nonce 12 hn, hrest,
    take_append_len _ _ hct, drop_append_len _ _ hct]
  rw [if_pos ⟨trivial, by
      rw [List.length_append, List.length_append, hn, hct, htag]
      omega⟩, if_pos trivial, hct,
    xorBytes_xorBytes pt _ (le_of_eq (keystream_length key nonce pt.length).symm)]

theorem encrypt_detached_parts (rng : Rng) (key pt : List Nat) :
    encrypt_detached_document rng key pt =
      (detachedDocumentMagic ++ ((rng.draw 12).1 ++
        (xorBytes pt (keystream key (rng.draw 12).1 pt.length) ++
          mac16 key ((rng.draw 12).1 ++
            xorBytes pt (keystream key (rng.draw 12).1 pt.length)))),
       (rng.draw 12).2) := by
  simp [encrypt_detached_document, Rng.draw, List.append_assoc]

theorem detached_document_roundtrip (rng : Rng) (key pt : List Nat) :
    (encrypt_detached_document rng key pt).1.length = 33 + pt.length ∧
    decrypt_detached_document key (encrypt_detached_document rng key pt).1 = .ok pt := by
  have hct : (xorBytes pt (keystream key (rng.draw 12).1 pt.length)).length = pt.length := by
    rw [xorBytes_length, keystream_length, Nat.min_self]
  constructor
  · rw [encrypt_detached_parts]
    simp [nonce_length, hct, mac16, prfBytes_length, detachedDocumentMagic]
    omega
  · rw [encrypt_detached_parts]
    exact decrypt_detached_parts key pt (rng.draw 12).1 (nonce_length rng)

/-- C10 helper: encryption preserves field labels. -/
theorem encryptFieldsCore_fst (dek : List Nat) :
    ∀ (doc : List (String × List Nat)) (rng : Rng),
    (encryptFieldsCore rng dek doc).map Prod.fst = doc.map Prod.fst := by
  intro doc
  induction doc with
  | nil => intro rng; rfl
  | cons p rest ih =>
    intro rng
    obtain ⟨l, pt⟩ := p
    simp only [encryptFieldsCore, List.map_cons]
    rw [ih]

theorem decrypt_document_core_fst (dek : List Nat) :
    ∀ (doc : List (String × List Nat)) res,
    decrypt_document_core doc dek = .ok res → res.map Prod.fst = doc.map Prod.fst := by
  intro doc
  induction doc with
  | nil =>
    intro res h
    simp only [decrypt_document_core] at h
    injection h with h
    subst h
    rfl
  | cons p rest ih =>
    intro res h
    obtain ⟨l, ct⟩ := p
    rw [decrypt_document_core] at h
    simp only [bind, Except.bind] at h
    cases hd : decrypt_detached_document dek ct with
    | error e => simp only [hd] at h; exact (Except.noConfusion h)
    | ok pt =>
      simp only [hd] at h
      cases hr : decrypt_document_core rest dek with
      | error e => simp only [hr] at h; exact (Except.noConfusion h)
      | ok rr =>
        simp only [hr, Except.ok.injEq] at h
        subst h
        simp only [List.map_cons]
        rw [ih rr hr]

/-- C10: For every input document map, when encrypt_document_core succeeds
its output document map has exactly the same field ids as the input, in
order — no field added, dropped or renamed, only the values transformed —
and the same holds for decrypt_document_core. -/
theorem document_core_preserves_field_ids
    (doc : List (String × List Nat)) (rng : Rng) (aes_dek : List Nat)
    (key_id_header : KeyIdHeader) (v4_doc : V4DocumentHeader)
    (res : EncryptedDocument) (doc2 : List (String × List Nat)) (dek2 : List Nat)
    (res2 : List (String × List Nat))
    (henc : encrypt_document_core doc rng aes_dek key_id_header v4_doc = .ok res)
    (hdec : decrypt_document_core doc2 dek2 = .ok res2) :
    res.document.map Prod.fst = doc.map Prod.fst ∧
    res2.map Prod.fst = doc2.map Prod.fst := by
  constructor
  · injection henc with henc
    subst henc
    exact encryptFieldsCore_fst aes_dek doc rng
  · exact decrypt_document_core_fst dek2 doc2 res2 hdec


theorem document_core_preserves_field_ids_witness :
    resW.document.map Prod.fst = docW.map Prod.fst ∧
    ([("foo", [100])] : List (String × List Nat)).map Prod.fst
      = ([("foo", blobW)] : List (String × List Nat)).map Prod.fst :=
  document_core_preserves_field_ids docW rngW (List.replicate 32 0) hdrStdW
    defaultV4DocumentHeader resW [("foo", blobW)] (List.replicate 32 0)
    [("foo", [100])] rfl rfl

/-- C6, counterexample to the claimed error message: on a signature mismatch
`verify_sig` raises "EDEK signature verification failed." (with a trailing
period), not the claimed "EDEK signature verification failed". -/
theorem verify_sig_message_counterexample :
    verify_sig [] badV4 = .error (.DecryptError "EDEK signature verification failed.") ∧
    verify_sig [] badV4 ≠ .error (.DecryptError "EDEK signature verification failed") := by
  constructor
  · rfl
  · intro h
    rw [show verify_sig [] badV4
      = .error (.DecryptError "EDEK signature verification failed.") from rfl] at h
    injection h with h
    injection h with h
    exact absurd h (by decide)

/-- C6 (amended): verify_sig returns Ok exactly when the EDEK's embedded
signature verifies under the DEK that the EDEK wraps; on a mismatch it
returns DecryptError with the message "EDEK signature verification failed."
(trailing period) and decryption is refused. -/
theorem verify_sig_spec (aes_dek : List Nat) (document : V4DocumentHeader) :
    (verify_sig aes_dek document = .ok () ↔ verify_signature aes_dek document = true) ∧
    (verify_signature aes_dek document = false →
      verify_sig aes_dek document =
        .error (.DecryptError "EDEK signature verification failed.")) := by
  unfold verify_sig
  cases h : verify_signature aes_dek document <;> simp [h]

theorem verify_sig_spec_witness :
    verify_sig [] { encrypted_dek := [1], signature := mac16 [] [1] } = .ok () ∧
    verify_sig [] badV4 = .error (.DecryptError "EDEK signature verification failed.") :=
  ⟨(verify_sig_spec [] _).1.mpr (by rfl), (verify_sig_spec [] badV4).2 (by rfl)⟩

/-- C5, counterexample to the claimed ciphertext size: at the S1 inputs the
ciphertext for "foo" is a 34-byte blob (magic ‖ nonce ‖ ct ‖ tag, as the
source test vector pins), not a 32-byte one. -/
theorem s1_ciphertext_not_32_bytes :
    ∃ res c,
      encrypt_document_core [("foo", [100])] rngW (List.replicate 32 0)
        (KeyIdHeader.mk .SaasShield .StandardEdek 1) defaultV4DocumentHeader = .ok res ∧
      res.document = [("foo", c)] ∧ c.length ≠ 32 :=
  ⟨_, _, rfl, rfl, by decide⟩

/-- C5 (amended): with the S1 inputs — plaintext {"foo": [100]}, an all-zero
32-byte key, header (SaasShield, StandardEdek, key_id=1) and an empty
document-header placeholder — encrypt_document_core produces an EDEK whose
bytes begin with the header [0,0,0,1,2,0] (and, the placeholder being empty,
equal it), and the ciphertext for "foo" is a 34-byte blob that decrypts back
to [100] under the DEK, for every RNG. -/
theorem s1_standard_encrypt (rng : Rng) :
    ∃ res c,
      encrypt_document_core [("foo", [100])] rng (List.replicate 32 0)
        (KeyIdHeader.mk .SaasShield .StandardEdek 1) defaultV4DocumentHeader = .ok res ∧
      res.edek = [0, 0, 0, 1, 2, 0] ∧
      res.document = [("foo", c)] ∧
      c.length = 34 ∧
      decrypt_detached_document (List.replicate 32 0) c = .ok [100] := by
  refine ⟨_, (encrypt_detached_document rng (List.replicate 32 0) [100]).1,
    rfl, rfl, rfl, ?_, ?_⟩
  · have h34 := (detached_document_roundtrip rng (List.replicate 32 0) [100]).1
    simpa using h34
  · exact (detached_document_roundtrip rng (List.replicate 32 0) [100]).2

theorem s1_standard_encrypt_witness :
    ∃ res c,
      encrypt_document_core [("foo", [100])] rngW (List.replicate 32 0)
        (KeyIdHeader.mk .SaasShield .StandardEdek 1) defaultV4DocumentHeader = .ok res ∧
      res.edek = [0, 0, 0, 1, 2, 0] ∧
      res.document = [("foo", c)] ∧
      c.length = 34 ∧
      decrypt_detached_document (List.replicate 32 0) c = .ok [100] :=
  s1_standard_encrypt rngW
